import Mathlib

/-!
Shallow embedding of the xmlschema package sources:
  src/xmlschema/exceptions.py        (the exception class hierarchy)
  src/xmlschema/components/__init__.py   (the XsdNotation component)
  src/xmlschema/__init__.py          (the public entry points)
Definitions are transcribed from the Python sources; where a collaborator of
those sources is not among the files (the validators subpackage, the qnames
and resources modules), its definition is modelled from the spec and says so
in its doc comment.
-/

/-- The exception kinds of the package: the XMLSchema* classes transcribed from
src/xmlschema/exceptions.py lines 17-57, the validator exception names the
package imports (src/xmlschema/__init__.py lines 21-24), and the two Python
builtins the sources use: TypeError (raised in from_json line 168) and
KeyError (raised by a dict item access, caught in components/__init__.py
line 63). -/
inductive PyExc where
  | typeError (msg : String)
  | keyError (key : String)
  | xmlSchemaOSError (msg : String)
  | xmlSchemaAttributeError (msg : String)
  | xmlSchemaTypeError (msg : String)
  | xmlSchemaValueError (msg : String)
  | xmlSchemaSyntaxError (msg : String)
  | xmlSchemaKeyError (msg : String)
  | xmlSchemaURLError (msg : String)
  | xmlSchemaRegexError (msg : String)
  | xmlSchemaXPathError (msg : String)
  | xmlSchemaParseError (msg : String)
  | xmlSchemaValidationError (msg : String)
  | xmlSchemaDecodeError (msg : String)
  | xmlSchemaEncodeError (msg : String)
  | xmlSchemaNotBuiltError (msg : String)
  | xmlSchemaChildrenValidationError (msg : String)
deriving DecidableEq, Repr

/-- Whether an exception kind is an instance of the base class
XMLSchemaException. The XMLSchema* classes of src/xmlschema/exceptions.py all
subclass it; the validator exceptions are modelled from the spec (section 7:
all library error kinds share a common base). The two Python builtins are
outside the family. -/
def PyExc.isXMLSchemaException : PyExc → Bool
  | .typeError _ => false
  | .keyError _ => false
  | _ => true

/-- An XML element node as the component parser sees it: its attribute dict as
an association list in insertion order (Python dicts preserve it; an XML
attribute set has distinct keys). -/
structure Elem where
  attrib : List (String × String)
deriving DecidableEq, Repr

/-- elem.get(key): the value for the key, when present. -/
def Elem.get (e : Elem) (k : String) : Option String :=
  (e.attrib.find? (fun p => p.fst == k)).map Prod.snd

/-- The keys of the attribute dict, in order. -/
def Elem.keys (e : Elem) : List String := e.attrib.map Prod.fst

/-- key in elem.attrib. -/
def Elem.hasKey (e : Elem) (k : String) : Bool := e.keys.contains k

/-- The parse-time diagnostics XsdNotation._parse can record
(src/xmlschema/components/__init__.py lines 55-76), one constructor per
distinct XMLSchemaParseError message of that method. -/
inductive ParseDiag where
  | notGlobal
  | missingName
  | wrongAttribute (key : String)
  | missingPublicSystem
deriving DecidableEq, Repr

/-- The state of the owning schema object that XsdNotation._parse touches: its
target namespace and its errors list (self.schema.errors). -/
structure SchemaState where
  targetNamespace : String
  errors : List ParseDiag
deriving DecidableEq, Repr

/-- The XsdNotation component fields the sources touch. componentErrors is the
per-component diagnostics list of the abstract base class; that base is not
among the sources, so the field is modelled from the spec (section 3: every
component carries an ordered errors sequence) and nothing in the transcribed
method writes to it. -/
structure XsdNotation where
  name : String
  elem : Elem
  isGlobal : Bool
  componentErrors : List ParseDiag
deriving DecidableEq, Repr

/-- XsdNotation.__init__ (components/__init__.py lines 52-53): the component
name starts as elem.get('name', ''). -/
def XsdNotation.init (elem : Elem) (isGlobal : Bool) : XsdNotation :=
  { name := (elem.get "name").getD "", elem := elem, isGlobal := isGlobal,
    componentErrors := [] }

/-- Modelled from the spec: get_qname comes from the qnames module, which is
not among the sources. Per spec section 3 the qualified name of a component is
the namespace URI plus the local name; with no target namespace the bare local
name stands. -/
def get_qname (uri localName : String) : String :=
  if uri = "" then localName else "\x7b" ++ uri ++ "\x7d" ++ localName

/-- A Python dict item access elem.attrib[key]: raises KeyError when the key
is absent. -/
def dictItem (e : Elem) (k : String) : Except PyExc String :=
  match e.get k with
  | some v => Except.ok v
  | none => Except.error (PyExc.keyError k)

/-- The attribute loop of XsdNotation._parse (components/__init__.py lines
68-76), transcribed with the public/system check inside the loop body exactly
as the source nests it: for each attribute key, an unknown key appends a
wrong-attribute error, and then, still inside the loop body, a missing
public and system pair appends its own error once more. -/
def notationAttrLoop (e : Elem) : List String → List ParseDiag → List ParseDiag
  | [], errs => errs
  | key :: rest, errs =>
    let errs1 :=
      if key ∈ (["id", "name", "public", "system"] : List String) then errs
      else errs ++ [ParseDiag.wrongAttribute key]
    let errs2 :=
      if e.hasKey "public" = false ∧ e.hasKey "system" = false then
        errs1 ++ [ParseDiag.missingPublicSystem]
      else errs1
    notationAttrLoop e rest errs2

/-- XsdNotation._parse (components/__init__.py lines 55-76). super()._parse()
is not among the sources and per spec section 4.1 records no diagnostic of its
own here, so it is a no-op. The try/except around the name lookup is the match
on the Except of the dict access: a KeyError is caught and any other exception
would propagate. -/
def XsdNotation.parseNotation (c : XsdNotation) (st : SchemaState) :
    Except PyExc (XsdNotation × SchemaState) :=
  let st1 :=
    if c.isGlobal then st
    else { st with errors := st.errors ++ [ParseDiag.notGlobal] }
  let finish := fun (c2 : XsdNotation) (st2 : SchemaState) =>
    Except.ok (c2,
      { st2 with errors := notationAttrLoop c2.elem c2.elem.keys st2.errors })
  match dictItem c.elem "name" with
  | Except.ok raw => finish { c with name := get_qname st1.targetNamespace raw } st1
  | Except.error (PyExc.keyError _) =>
      finish c { st1 with errors := st1.errors ++ [ParseDiag.missingName] }
  | Except.error e => Except.error e

/-- The diagnostics one run of the attribute loop produces, spelled as a flat
list in detection order. -/
def notationAttrDiags (e : Elem) : List String → List ParseDiag
  | [] => []
  | key :: rest =>
    (if key ∈ (["id", "name", "public", "system"] : List String) then []
     else [ParseDiag.wrongAttribute key]) ++
    (if e.hasKey "public" = false ∧ e.hasKey "system" = false then
       [ParseDiag.missingPublicSystem]
     else []) ++
    notationAttrDiags e rest

/-- All diagnostics one call of XsdNotation._parse records for a component, in
detection order. -/
def notationDiags (c : XsdNotation) : List ParseDiag :=
  (if c.isGlobal then [] else [ParseDiag.notGlobal]) ++
  (if (c.elem.get "name").isSome then [] else [ParseDiag.missingName]) ++
  notationAttrDiags c.elem c.elem.keys

/-- The component name XsdNotation._parse leaves behind: the qualified form of
the name attribute when present, the prior name otherwise. -/
def notationParsedName (c : XsdNotation) (tns : String) : String :=
  match c.elem.get "name" with
  | some raw => get_qname tns raw
  | none => c.name

/-- Schema location hints (the locations argument of the entry points). -/
abbrev LocHints := List (String × String)

/-- What schema.to_dict hands back: a decoded value, or under lax validation a
(value, errors) pair. Modelled from the spec (sections 4.4 and 6): the
XMLSchema class body is not among the sources. The decoded value stands in as
an opaque token string. -/
inductive DecodeResult where
  | value (v : String)
  | valueWithErrors (v : String) (errs : List String)
deriving DecidableEq, Repr

/-- What schema.encode hands back: an element, or under lax validation an
(element, errors) pair. Modelled from the spec (sections 4.4 and 6). -/
inductive EncodeResult where
  | element (v : String)
  | elementWithErrors (v : String) (errs : List String)
deriving DecidableEq, Repr

/-- The arguments an entry point hands to schema.to_dict
(src/xmlschema/__init__.py line 93 and lines 133-134). Fields an entry point
does not pass stay none. -/
structure DecodeCall where
  doc : String
  path : Option String
  processNamespaces : Bool
  decimalType : Option String
  dictClass : Option String
  converter : Option String
  extra : List (String × String)
deriving DecidableEq, Repr

/-- The arguments from_json hands to schema.encode
(src/xmlschema/__init__.py line 180). -/
structure EncodeCall where
  obj : String
  path : Option String
  converter : Option String
  dictClass : String
  extra : List (String × String)
deriving DecidableEq, Repr

/-- An already built XMLSchema instance, abstracted to the three methods the
entry points call. Modelled from the spec (sections 4.4 and 6): the class body
is not among the sources, so each method is an arbitrary function the theorems
quantify over. -/
structure SchemaInst where
  validateFn : String → Bool → Except PyExc Unit
  toDictFn : DecodeCall → Except PyExc DecodeResult
  encodeFn : EncodeCall → Except PyExc EncodeResult

/-- What a caller may pass for the schema parameter of the public functions:
an already built instance, a schema source, or None. -/
inductive SchemaArg where
  | inst (s : SchemaInst)
  | src (source : String)
  | noSchema

/-- fetch_schema_locations from the resources module, not among the sources;
modelled from the spec (section 6): schema acquisition resolves a document to
a schema source plus location hints. This variant is total — its failure path
(spec section 7: wrapped URL/resource errors) is modelled separately as
FallibleFetchFn. -/
abbrev FetchFn := String → Option LocHints → String × Option LocHints

/-- The schema class used as cls(source, validation, locations) to build an
instance. The construction is not among the sources; modelled from the spec
(section 6). This variant is total — its failure path (spec section 4.1:
structurally fatal build conditions raise) is modelled separately as
FallibleClsFn. -/
abbrev ClsFn := String → String → Option LocHints → SchemaInst

/-- json.load / json.loads, the excluded JSON text collaborator (spec section
1 excludes JSON text de/serialization): a total function of the source text,
the two object hooks and the leftover json options. -/
abbrev LoadsFn := String → String → String → List (String × String) → String

/-- The schema-resolution idiom each entry point repeats
(src/xmlschema/__init__.py lines 54-59, 88-91 and 124-127): an instance is
used as given and nothing is built; otherwise a None schema is first resolved
by fetch_schema_locations, and an instance is built with validation strict.
The second component counts how many instances were constructed. -/
def resolveSchema (fetch : FetchFn) (cls : ClsFn) (doc : String)
    (schema : SchemaArg) (locations : Option LocHints) : SchemaInst × Nat :=
  match schema with
  | SchemaArg.inst s => (s, 0)
  | SchemaArg.src source => (cls source "strict" locations, 1)
  | SchemaArg.noSchema =>
      let p := fetch doc locations
      (cls p.1 "strict" p.2, 1)

/-- The public validate function (src/xmlschema/__init__.py lines 38-59): it
resolves the schema argument and calls the instance's validate method; the
Python function body has no return statement, so its success value is Unit.
The second component counts schema constructions. -/
def libValidate (fetch : FetchFn) (cls : ClsFn) (doc : String)
    (schema : SchemaArg) (useDefaults : Bool) (locations : Option LocHints) :
    Except PyExc Unit × Nat :=
  let r := resolveSchema fetch cls doc schema locations
  (r.1.validateFn doc useDefaults, r.2)

/-- The default values of the public validate signature
(src/xmlschema/__init__.py line 38): schema=None, use_defaults=True,
locations=None. -/
structure ValidateDefaults where
  schema : SchemaArg
  useDefaults : Bool
  locations : Option LocHints

/-- The defaults as the signature writes them. -/
def validateDefaults : ValidateDefaults :=
  { schema := SchemaArg.noSchema, useDefaults := true, locations := none }

/-- The DecodeCall to_dict assembles for schema.to_dict
(src/xmlschema/__init__.py line 93): the path, the namespaces flag and the
untouched kwargs. -/
def toDictDecodeCall (doc : String) (path : Option String)
    (processNamespaces : Bool) (kwargs : List (String × String)) : DecodeCall :=
  { doc := doc, path := path, processNamespaces := processNamespaces,
    decimalType := none, dictClass := none, converter := none,
    extra := kwargs }

/-- The public to_dict function (src/xmlschema/__init__.py lines 62-93). -/
def libToDict (fetch : FetchFn) (cls : ClsFn) (doc : String)
    (schema : SchemaArg) (path : Option String) (processNamespaces : Bool)
    (locations : Option LocHints) (kwargs : List (String × String)) :
    Except PyExc DecodeResult × Nat :=
  let r := resolveSchema fetch cls doc schema locations
  (r.1.toDictFn (toDictDecodeCall doc path processNamespaces kwargs), r.2)

/-- Python dict.pop(key, default) over a kwargs association list: the value
for the key (or the default) and the dict with that key removed. -/
def popKw (kwargs : List (String × String)) (key dflt : String) :
    String × List (String × String) :=
  match kwargs.find? (fun p => p.fst == key) with
  | some p => (p.snd, kwargs.filter (fun q => q.fst != key))
  | none => (dflt, kwargs)

/-- What a to_json call returns (src/xmlschema/__init__.py lines 136-145): a
JSON text, a (text, errors) pair, None after writing to fp, or the errors
tuple alone after writing to fp. The text cases keep the value and the
serializer options json.dumps received. -/
inductive JsonRet where
  | written
  | text (v : String) (opts : List (String × String))
  | textWithErrors (v : String) (opts : List (String × String))
      (errs : List String)
  | errorsOnly (errs : List String)
deriving DecidableEq, Repr

/-- One json.dump call: the value written to fp and the keyword options the
serializer received. -/
structure DumpCall where
  v : String
  opts : List (String × String)
deriving DecidableEq, Repr

/-- The DecodeCall to_json assembles for schema.to_dict
(src/xmlschema/__init__.py lines 131-134): decimal_type and dict_class are
popped off kwargs (defaults float and the ordered dict class) and handed over
together with the leftover kwargs. -/
def toJsonDecodeCall (doc : String) (path : Option String)
    (converter : Option String) (processNamespaces : Bool)
    (kwargs : List (String × String)) : DecodeCall :=
  let p1 := popKw kwargs "decimal_type" "float"
  let p2 := popKw p1.2 "dict_class" "ordered_dict_class"
  { doc := doc, path := path, processNamespaces := processNamespaces,
    decimalType := some p1.1, dictClass := some p2.1, converter := converter,
    extra := p2.2 }

/-- The leftover decoding kwargs of a to_json call, after the decimal_type and
dict_class pops. -/
def toJsonLeftoverKwargs (kwargs : List (String × String)) :
    List (String × String) :=
  (popKw (popKw kwargs "decimal_type" "float").2 "dict_class"
    "ordered_dict_class").2

/-- The public to_json function (src/xmlschema/__init__.py lines 96-145):
resolve the schema, default json_options to the empty dict, pop decimal_type
and dict_class off kwargs, decode via schema.to_dict, then branch exactly as
the source does. A tuple result with fp dumps obj[0] with the leftover kwargs
as serializer options and returns tuple(obj[1]); a tuple without fp returns
(json.dumps(obj[0], json_options), tuple(obj[1])); a plain value is dumped or
returned with json_options. Result: (outcome with the dump calls made, number
of schema constructions). -/
def libToJson (fetch : FetchFn) (cls : ClsFn) (doc : String) (fp : Bool)
    (schema : SchemaArg) (path : Option String) (converter : Option String)
    (processNamespaces : Bool) (locations : Option LocHints)
    (jsonOptions : Option (List (String × String)))
    (kwargs : List (String × String)) :
    Except PyExc (JsonRet × List DumpCall) × Nat :=
  let r := resolveSchema fetch cls doc schema locations
  let jOpts := jsonOptions.getD []
  match r.1.toDictFn (toJsonDecodeCall doc path converter processNamespaces kwargs) with
  | Except.error e => (Except.error e, r.2)
  | Except.ok (DecodeResult.valueWithErrors v errs) =>
      if fp then
        (Except.ok (JsonRet.errorsOnly errs,
          [{ v := v, opts := toJsonLeftoverKwargs kwargs }]), r.2)
      else
        (Except.ok (JsonRet.textWithErrors v jOpts errs, []), r.2)
  | Except.ok (DecodeResult.value v) =>
      if fp then (Except.ok (JsonRet.written, [{ v := v, opts := jOpts }]), r.2)
      else (Except.ok (JsonRet.text v jOpts, []), r.2)

/-- The EncodeCall from_json assembles for schema.encode
(src/xmlschema/__init__.py lines 169-180): json_options defaults to the empty
dict, dict_class is popped off kwargs, the two object hooks off json_options,
and the object the JSON collaborator parsed goes to the encoder together with
the leftover kwargs. -/
def fromJsonEncodeCall (loads : LoadsFn) (source : String)
    (path converter : Option String)
    (jsonOptions : Option (List (String × String)))
    (kwargs : List (String × String)) : EncodeCall :=
  let jOpts := jsonOptions.getD []
  let pk := popKw kwargs "dict_class" "ordered_dict_class"
  let ph1 := popKw jOpts "object_hook" "ordered_dict_class"
  let ph2 := popKw ph1.2 "object_pairs_hook" "ordered_dict_class"
  { obj := loads source ph1.1 ph2.1 ph2.2, path := path,
    converter := converter, dictClass := pk.1, extra := pk.2 }

/-- The public from_json function (src/xmlschema/__init__.py lines 148-180): a
schema argument that is not an XMLSchema instance raises the Python builtin
TypeError; otherwise the JSON collaborator parses the source text and the
result goes to schema.encode. -/
def libFromJson (loads : LoadsFn) (source : String) (schema : SchemaArg)
    (path : Option String) (converter : Option String)
    (jsonOptions : Option (List (String × String)))
    (kwargs : List (String × String)) : Except PyExc EncodeResult :=
  match schema with
  | SchemaArg.inst s =>
      s.encodeFn (fromJsonEncodeCall loads source path converter jsonOptions kwargs)
  | _ =>
      Except.error (PyExc.typeError
        "An XMLSchema instance required for the schema argument")

/-- A schema instance none of whose methods ever fails; decode returns a plain
value. -/
def okInst : SchemaInst :=
  { validateFn := fun _ _ => Except.ok (),
    toDictFn := fun _ => Except.ok (DecodeResult.value "decoded"),
    encodeFn := fun _ => Except.ok (EncodeResult.element "root") }

/-- A schema instance whose decode hands back a lax-mode (value, errors)
pair. -/
def laxInst : SchemaInst :=
  { validateFn := fun _ _ => Except.ok (),
    toDictFn := fun _ => Except.ok (DecodeResult.valueWithErrors "val" ["err1"]),
    encodeFn := fun _ => Except.ok (EncodeResult.element "root") }

/-- A concrete fetch collaborator for the witness instantiations. -/
def wFetch : FetchFn := fun d l => (d, l)

/-- A concrete schema class for the witness instantiations. -/
def wCls : ClsFn := fun _ _ _ => okInst

/-- A concrete JSON collaborator for the witness instantiations. -/
def wLoads : LoadsFn := fun s _ _ _ => s

/-- fetch_schema_locations with its failure path: modelled from the spec
(section 7: URL/resource failures are surfaced from the resource collaborator
wrapped into the library's exception family). -/
abbrev FallibleFetchFn :=
  String → Option LocHints → Except PyExc (String × Option LocHints)

/-- The schema class cls(source, validation, locations) with its failure path:
modelled from the spec (section 4.1: the builder raises for structurally fatal
conditions). -/
abbrev FallibleClsFn :=
  String → String → Option LocHints → Except PyExc SchemaInst

/-- The schema-resolution idiom of validate
(src/xmlschema/__init__.py lines 54-59) over fallible collaborators: an
instance is used as given and nothing is built; otherwise fetching and
construction may themselves raise, and their exception propagates. The Nat
counts constructed instances. -/
def resolveSchemaE (fetch : FallibleFetchFn) (cls : FallibleClsFn)
    (doc : String) (schema : SchemaArg) (locations : Option LocHints) :
    Except PyExc (SchemaInst × Nat) :=
  match schema with
  | SchemaArg.inst s => Except.ok (s, 0)
  | SchemaArg.src source =>
      match cls source "strict" locations with
      | Except.ok s => Except.ok (s, 1)
      | Except.error e => Except.error e
  | SchemaArg.noSchema =>
      match fetch doc locations with
      | Except.ok p =>
          match cls p.1 "strict" p.2 with
          | Except.ok s => Except.ok (s, 1)
          | Except.error e => Except.error e
      | Except.error e => Except.error e

/-- The public validate function (src/xmlschema/__init__.py lines 38-59) over
fallible collaborators: an exception raised while fetching or constructing the
schema propagates to the caller before any document validation happens. -/
def libValidateE (fetch : FallibleFetchFn) (cls : FallibleClsFn) (doc : String)
    (schema : SchemaArg) (useDefaults : Bool) (locations : Option LocHints) :
    Except PyExc Unit × Nat :=
  match resolveSchemaE fetch cls doc schema locations with
  | Except.ok r => (r.1.validateFn doc useDefaults, r.2)
  | Except.error e => (Except.error e, 0)

/-- A fallible fetch collaborator that never fails, for the witness
instantiations. -/
def wFetchE : FallibleFetchFn := fun d l => Except.ok (d, l)

/-- A fallible schema class that never fails, for the witness
instantiations. -/
def wClsE : FallibleClsFn := fun _ _ _ => Except.ok okInst

/-- A fetch collaborator whose resource access fails with a URL error wrapped
into the library family, as spec section 7 describes. -/
def failFetch : FallibleFetchFn :=
  fun _ _ => Except.error (PyExc.xmlSchemaURLError "connection refused")

theorem notationAttrLoop_eq (e : Elem) (keys : List String)
    (errs : List ParseDiag) :
    notationAttrLoop e keys errs = errs ++ notationAttrDiags e keys := by
  induction keys generalizing errs with
  | nil => simp [notationAttrLoop, notationAttrDiags]
  | cons k rest ih =>
    by_cases h1 : k ∈ (["id", "name", "public", "system"] : List String) <;>
      by_cases h2 : e.hasKey "public" = false ∧ e.hasKey "system" = false <;>
        simp [notationAttrLoop, notationAttrDiags, h1, h2, ih]

theorem parseNotation_eq (c : XsdNotation) (st : SchemaState) :
    XsdNotation.parseNotation c st =
      Except.ok ({ c with name := notationParsedName c st.targetNamespace },
                 { st with errors := st.errors ++ notationDiags c }) := by
  obtain ⟨n, e, g, ce⟩ := c
  unfold XsdNotation.parseNotation dictItem notationParsedName notationDiags
  cases hget : e.get "name" <;> cases g <;>
    simp [hget, notationAttrLoop_eq]

theorem notationAttrDiags_count (e : Elem) (keys : List String) (key : String)
    (hk : key ∉ (["id", "name", "public", "system"] : List String)) :
    (notationAttrDiags e keys).count (ParseDiag.wrongAttribute key) =
      keys.count key := by
  induction keys with
  | nil => simp [notationAttrDiags]
  | cons k rest ih =>
    by_cases h3 : k = key
    · subst h3
      by_cases h2 : e.hasKey "public" = false ∧ e.hasKey "system" = false <;>
        simp [notationAttrDiags, hk, h2, ih, List.count_append, List.count_cons]
    · by_cases h1 : k ∈ (["id", "name", "public", "system"] : List String) <;>
        by_cases h2 : e.hasKey "public" = false ∧ e.hasKey "system" = false <;>
          simp [notationAttrDiags, h1, h2, h3, ih, List.count_append,
            List.count_cons, Ne.symm h3]

theorem notationDiags_count_wrongAttribute (c : XsdNotation) (key : String)
    (hk : key ∉ (["id", "name", "public", "system"] : List String)) :
    (notationDiags c).count (ParseDiag.wrongAttribute key) =
      c.elem.keys.count key := by
  unfold notationDiags
  by_cases hg : c.isGlobal <;>
    by_cases hn : (c.elem.get "name").isSome <;>
      simp [hg, hn, List.count_append, List.count_cons,
        notationAttrDiags_count c.elem c.elem.keys key hk]

/-- C1: the code bug exhibited. A global declaration carrying no attributes at
all lacks both public and system, yet parsing records only the missing-name
diagnostic: the missing public/system violation is silently passed over,
because the source nests that check inside the loop over the (empty) attribute
dict (components/__init__.py lines 68-76). -/
theorem notation_empty_attrib_misses_public_system_error :
    XsdNotation.parseNotation (XsdNotation.init { attrib := [] } true)
        { targetNamespace := "tns", errors := [] } =
      Except.ok ({ name := "", elem := { attrib := [] }, isGlobal := true,
                   componentErrors := [] },
                 { targetNamespace := "tns",
                   errors := [ParseDiag.missingName] }) := rfl

/-- C4: XsdNotation._parse terminates normally on every input: no exception
escapes it, and the grammar violations it detects are appended to the schema
errors list. -/
theorem notation_parse_never_raises (c : XsdNotation) (st : SchemaState) :
    ∃ c2, XsdNotation.parseNotation c st =
      Except.ok (c2, { st with errors := st.errors ++ notationDiags c }) :=
  ⟨_, parseNotation_eq c st⟩

/-- C5: counterexample. Parsing a non-global declaration with no attributes
produces two diagnostics, both appended to the owning schema's errors list,
while the component's own errors sequence stays empty: the diagnostics are not
attached to the offending component itself. -/
theorem notation_diags_not_on_component :
    XsdNotation.parseNotation (XsdNotation.init { attrib := [] } false)
        { targetNamespace := "tns", errors := [] } =
      Except.ok ({ name := "", elem := { attrib := [] }, isGlobal := false,
                   componentErrors := [] },
                 { targetNamespace := "tns",
                   errors := [ParseDiag.notGlobal, ParseDiag.missingName] }) := rfl

/-- C5 (amended): every diagnostic produced while parsing a notation
declaration is appended, in detection order, to the owning schema's errors
list, after whatever that list already held; none is dropped. -/
theorem notation_diags_appended_to_schema (c : XsdNotation) (st : SchemaState) :
    ∃ c2, XsdNotation.parseNotation c st =
      Except.ok (c2, { st with errors := st.errors ++ notationDiags c }) ∧
        c2.componentErrors = c.componentErrors :=
  ⟨_, parseNotation_eq c st, rfl⟩

/-- C7: an attribute key outside id, name, public, system that appears in the
(distinct-keyed) attribute dict yields exactly one wrong-attribute diagnostic
for that key, and parsing still completes normally. -/
theorem notation_unknown_attribute_reported_once (c : XsdNotation)
    (st : SchemaState) (key : String) (hmem : key ∈ c.elem.keys)
    (hnodup : c.elem.keys.Nodup)
    (hk : key ∉ (["id", "name", "public", "system"] : List String)) :
    ∃ c2 st2, XsdNotation.parseNotation c st = Except.ok (c2, st2) ∧
      st2.errors.count (ParseDiag.wrongAttribute key) =
        st.errors.count (ParseDiag.wrongAttribute key) + 1 := by
  refine ⟨_, _, parseNotation_eq c st, ?_⟩
  simp [List.count_append, notationDiags_count_wrongAttribute c key hk,
    List.count_eq_one_of_mem hnodup hmem]

/-- C7 witness: a concrete declaration with the single unknown attribute foo
gets exactly one wrong-attribute diagnostic for foo. -/
theorem notation_unknown_attribute_reported_once_witness :
    ∃ c2 st2,
      XsdNotation.parseNotation (XsdNotation.init { attrib := [("foo", "1")] } true)
          { targetNamespace := "tns", errors := [] } = Except.ok (c2, st2) ∧
        st2.errors.count (ParseDiag.wrongAttribute "foo") =
          (SchemaState.errors { targetNamespace := "tns", errors := [] }).count
              (ParseDiag.wrongAttribute "foo") + 1 :=
  notation_unknown_attribute_reported_once _ _ "foo" (by decide) (by decide)
    (by decide)

/-- C8: after parsing, a notation component whose element carries a name
attribute holds the qualified name built from the owning schema's target
namespace and the attribute value; with the attribute absent the name stays
the empty string the constructor put there. -/
theorem notation_name_after_parse (elem : Elem) (isGlobal : Bool)
    (st : SchemaState) (c2 : XsdNotation) (st2 : SchemaState)
    (hrun : XsdNotation.parseNotation (XsdNotation.init elem isGlobal) st =
      Except.ok (c2, st2)) :
    (∀ raw, elem.get "name" = some raw →
      c2.name = get_qname st.targetNamespace raw) ∧
    (elem.get "name" = none → c2.name = "") := by
  rw [parseNotation_eq] at hrun
  injection hrun with h
  injection h with h1 h2
  constructor
  · intro raw hraw
    rw [← h1]
    simp [XsdNotation.init, notationParsedName, hraw]
  · intro hnone
    rw [← h1]
    simp [XsdNotation.init, notationParsedName, hnone]

/-- C8 witness: a concrete declaration whose name attribute is n, under target
namespace u, ends up named with the qualified form of n. -/
theorem notation_name_after_parse_witness :
    (∀ raw, Elem.get { attrib := [("name", "n"), ("public", "p")] } "name" =
        some raw →
      (XsdNotation.mk "\x7bu\x7dn" { attrib := [("name", "n"), ("public", "p")] }
          true []).name = get_qname "u" raw) ∧
    (Elem.get { attrib := [("name", "n"), ("public", "p")] } "name" = none →
      (XsdNotation.mk "\x7bu\x7dn" { attrib := [("name", "n"), ("public", "p")] }
          true []).name = "") :=
  notation_name_after_parse { attrib := [("name", "n"), ("public", "p")] } true
    { targetNamespace := "u", errors := [] }
    { name := "\x7bu\x7dn", elem := { attrib := [("name", "n"), ("public", "p")] },
      isGlobal := true, componentErrors := [] }
    { targetNamespace := "u", errors := [] } rfl

/-- C3: the code bug exhibited. from_json with a schema argument that is not
an XMLSchema instance raises the Python builtin TypeError
(src/xmlschema/__init__.py line 168), which is not an instance of
XMLSchemaException, so a caller catching the library's common base misses
it. -/
theorem from_json_type_error_outside_taxonomy :
    libFromJson wLoads "null" (SchemaArg.src "schema.xsd") none none none [] =
      Except.error (PyExc.typeError
        "An XMLSchema instance required for the schema argument") ∧
    PyExc.isXMLSchemaException (PyExc.typeError
        "An XMLSchema instance required for the schema argument") = false :=
  ⟨rfl, rfl⟩

/-- C6: counterexample. validate called with schema None against a resource
collaborator whose fetch fails surfaces the wrapped URL error, which is not a
ValidationError: the ok-or-ValidationError dichotomy breaks once schema
acquisition can fail, as spec sections 4.1 and 7 say it can. -/
theorem validate_url_error_not_validation_error :
    (libValidateE failFetch wClsE "doc" SchemaArg.noSchema true none).1 =
      Except.error (PyExc.xmlSchemaURLError "connection refused") ∧
    (∀ m, PyExc.xmlSchemaURLError "connection refused" ≠
      PyExc.xmlSchemaValidationError m) :=
  ⟨rfl, fun _ h => PyExc.noConfusion h⟩

/-- C6 (amended): the public validate returns no value — its Python body has
no return statement, so the success value is Unit — and otherwise raises an
error of the library family: schema fetching and construction may surface
their own wrapped failures first, and once an instance is resolved its
validate method raises only XMLSchemaValidationError (so with an already built
instance supplied, validation errors are the only failures); and the
use_defaults parameter of the signature defaults to true. The hypotheses are
the spec-modelled contracts of the absent collaborators: fetch and
construction failures are wrapped into the family (spec sections 4.1 and 7)
and the instance's validate raises only XMLSchemaValidationError (its
docstring, spec section 6). -/
theorem validate_void_or_taxonomy_error (fetch : FallibleFetchFn)
    (cls : FallibleClsFn) (doc : String) (schema : SchemaArg)
    (useDefaults : Bool) (locations : Option LocHints)
    (hfetch : ∀ d l e, fetch d l = Except.error e →
      PyExc.isXMLSchemaException e = true)
    (hcls : ∀ a b l e, cls a b l = Except.error e →
      PyExc.isXMLSchemaException e = true)
    (hval : ∀ s n, resolveSchemaE fetch cls doc schema locations =
        Except.ok (s, n) → ∀ e, s.validateFn doc useDefaults =
        Except.error e → ∃ m, e = PyExc.xmlSchemaValidationError m) :
    ((libValidateE fetch cls doc schema useDefaults locations).1 =
        Except.ok () ∨
      ∃ e, (libValidateE fetch cls doc schema useDefaults locations).1 =
          Except.error e ∧ PyExc.isXMLSchemaException e = true) ∧
    (∀ s, schema = SchemaArg.inst s →
      ((libValidateE fetch cls doc schema useDefaults locations).1 =
          Except.ok () ∨
        ∃ m, (libValidateE fetch cls doc schema useDefaults locations).1 =
          Except.error (PyExc.xmlSchemaValidationError m))) ∧
    validateDefaults.useDefaults = true := by
  refine ⟨?_, ?_, rfl⟩
  · cases hres : resolveSchemaE fetch cls doc schema locations with
    | ok r =>
      cases hv : r.1.validateFn doc useDefaults with
      | ok u => exact Or.inl (by simp [libValidateE, hres, hv])
      | error e =>
        obtain ⟨m, hm⟩ := hval r.1 r.2 (by rw [hres]) e hv
        subst hm
        exact Or.inr ⟨PyExc.xmlSchemaValidationError m,
          by simp [libValidateE, hres, hv], rfl⟩
    | error e =>
      have htax : PyExc.isXMLSchemaException e = true := by
        cases schema with
        | inst s => simp [resolveSchemaE] at hres
        | src source2 =>
          cases hc : cls source2 "strict" locations with
          | ok s => simp [resolveSchemaE, hc] at hres
          | error e2 =>
            simp [resolveSchemaE, hc] at hres
            subst hres
            exact hcls source2 "strict" locations e2 hc
        | noSchema =>
          cases hf : fetch doc locations with
          | ok p =>
            cases hc : cls p.1 "strict" p.2 with
            | ok s => simp [resolveSchemaE, hf, hc] at hres
            | error e2 =>
              simp [resolveSchemaE, hf, hc] at hres
              subst hres
              exact hcls p.1 "strict" p.2 e2 hc
          | error e2 =>
            simp [resolveSchemaE, hf] at hres
            subst hres
            exact hfetch doc locations e2 hf
      exact Or.inr ⟨e, by simp [libValidateE, hres], htax⟩
  · intro s hs
    subst hs
    cases hv : s.validateFn doc useDefaults with
    | ok u => exact Or.inl (by simp [libValidateE, resolveSchemaE, hv])
    | error e =>
      obtain ⟨m, hm⟩ := hval s 0 rfl e hv
      subst hm
      exact Or.inr ⟨m, by simp [libValidateE, resolveSchemaE, hv]⟩

/-- C6 witness: a concrete call against collaborators that never fail and an
instance whose validate method never fails. -/
theorem validate_void_or_taxonomy_error_witness :
    ((libValidateE wFetchE wClsE "doc" (SchemaArg.inst okInst) true none).1 =
        Except.ok () ∨
      ∃ e, (libValidateE wFetchE wClsE "doc" (SchemaArg.inst okInst) true
          none).1 = Except.error e ∧ PyExc.isXMLSchemaException e = true) ∧
    (∀ s, SchemaArg.inst okInst = SchemaArg.inst s →
      ((libValidateE wFetchE wClsE "doc" (SchemaArg.inst okInst) true none).1 =
          Except.ok () ∨
        ∃ m, (libValidateE wFetchE wClsE "doc" (SchemaArg.inst okInst) true
            none).1 = Except.error (PyExc.xmlSchemaValidationError m))) ∧
    validateDefaults.useDefaults = true :=
  validate_void_or_taxonomy_error wFetchE wClsE "doc" (SchemaArg.inst okInst)
    true none
    (fun d l e h => absurd h (by simp [wFetchE]))
    (fun a b l e h => absurd h (by simp [wClsE]))
    (fun s n hres e h => by
      injection hres with h2
      injection h2 with h3 h4
      subst h3
      exact absurd h (by simp [okInst]))

/-- C9: with an already built schema instance, validate and to_dict construct
no new schema object and delegate directly to the given instance; the fetch,
cls and locations arguments are ignored, so the result is independent of
them. -/
theorem instance_schema_delegates (fetch fetch2 : FetchFn) (cls cls2 : ClsFn)
    (doc : String) (s : SchemaInst) (useDefaults : Bool)
    (locations locations2 : Option LocHints) (path : Option String)
    (processNamespaces : Bool) (kwargs : List (String × String)) :
    libValidate fetch cls doc (SchemaArg.inst s) useDefaults locations =
      (s.validateFn doc useDefaults, 0) ∧
    libToDict fetch cls doc (SchemaArg.inst s) path processNamespaces locations
        kwargs =
      (s.toDictFn (toDictDecodeCall doc path processNamespaces kwargs), 0) ∧
    libValidate fetch cls doc (SchemaArg.inst s) useDefaults locations =
      libValidate fetch2 cls2 doc (SchemaArg.inst s) useDefaults locations2 ∧
    libToDict fetch cls doc (SchemaArg.inst s) path processNamespaces locations
        kwargs =
      libToDict fetch2 cls2 doc (SchemaArg.inst s) path processNamespaces
        locations2 kwargs :=
  ⟨rfl, rfl, rfl, rfl⟩

/-- C10: to_json with a file object. When the decode hands back a (value,
errors) pair, the value is written with the leftover decoding kwargs — not
json_options — as serializer options and only the errors tuple is returned;
when it hands back a plain value, the write uses json_options and nothing is
returned. -/
theorem to_json_fp_writer_options (fetch : FetchFn) (cls : ClsFn)
    (doc : String) (schema : SchemaArg) (path : Option String)
    (converter : Option String) (processNamespaces : Bool)
    (locations : Option LocHints)
    (jsonOptions : Option (List (String × String)))
    (kwargs : List (String × String)) (v : String) (errs : List String) :
    ((resolveSchema fetch cls doc schema locations).1.toDictFn
        (toJsonDecodeCall doc path converter processNamespaces kwargs) =
      Except.ok (DecodeResult.valueWithErrors v errs) →
      libToJson fetch cls doc true schema path converter processNamespaces
          locations jsonOptions kwargs =
        (Except.ok (JsonRet.errorsOnly errs,
          [{ v := v, opts := toJsonLeftoverKwargs kwargs }]),
         (resolveSchema fetch cls doc schema locations).2)) ∧
    ((resolveSchema fetch cls doc schema locations).1.toDictFn
        (toJsonDecodeCall doc path converter processNamespaces kwargs) =
      Except.ok (DecodeResult.value v) →
      libToJson fetch cls doc true schema path converter processNamespaces
          locations jsonOptions kwargs =
        (Except.ok (JsonRet.written, [{ v := v, opts := jsonOptions.getD [] }]),
         (resolveSchema fetch cls doc schema locations).2)) := by
  constructor <;> intro h <;> simp [libToJson, h]

/-- C2: counterexample. With a file object and a lax decode, to_json returns
the errors tuple alone — an errors-only outcome — and from_json with a None
schema argument raises a builtin TypeError outside the library taxonomy: two
outcome shapes the claim rules out. -/
theorem entry_point_outcome_shapes_cex :
    libToJson wFetch wCls "doc" true (SchemaArg.inst laxInst) none none true
        none none [] =
      (Except.ok (JsonRet.errorsOnly ["err1"],
        [{ v := "val", opts := [] }]), 0) ∧
    libFromJson wLoads "null" SchemaArg.noSchema none none none [] =
      Except.error (PyExc.typeError
        "An XMLSchema instance required for the schema argument") ∧
    PyExc.isXMLSchemaException (PyExc.typeError
        "An XMLSchema instance required for the schema argument") = false :=
  ⟨rfl, rfl, rfl⟩

/-- C2 (amended): every public entry point call either returns its successful
result, returns a (value, errors) pair when lax validation collected errors,
or — for to_json with a file object under a lax decode — returns the errors
tuple alone after writing the value to the file; and every failure it raises
is an error kind of the library taxonomy, except that from_json rejects a
schema argument that is no instance with a builtin TypeError. The hypotheses
are the spec-modelled contract that the schema methods themselves raise only
taxonomy errors. -/
theorem entry_point_outcome_shapes (fetch : FetchFn) (cls : ClsFn)
    (loads : LoadsFn) (doc source : String) (schema : SchemaArg)
    (useDefaults fp processNamespaces : Bool) (locations : Option LocHints)
    (path : Option String) (converter : Option String)
    (jsonOptions : Option (List (String × String)))
    (kwargs : List (String × String))
    (hval : ∀ e, (resolveSchema fetch cls doc schema locations).1.validateFn
        doc useDefaults = Except.error e →
      PyExc.isXMLSchemaException e = true)
    (hdec : ∀ call e,
      (resolveSchema fetch cls doc schema locations).1.toDictFn call =
        Except.error e → PyExc.isXMLSchemaException e = true)
    (henc : ∀ s, schema = SchemaArg.inst s → ∀ e,
      s.encodeFn (fromJsonEncodeCall loads source path converter jsonOptions
        kwargs) = Except.error e → PyExc.isXMLSchemaException e = true) :
    ((libValidate fetch cls doc schema useDefaults locations).1 =
        Except.ok () ∨
      ∃ e, (libValidate fetch cls doc schema useDefaults locations).1 =
          Except.error e ∧ PyExc.isXMLSchemaException e = true) ∧
    ((∃ v, (libToDict fetch cls doc schema path processNamespaces locations
        kwargs).1 = Except.ok (DecodeResult.value v)) ∨
      (∃ v errs, (libToDict fetch cls doc schema path processNamespaces
        locations kwargs).1 =
          Except.ok (DecodeResult.valueWithErrors v errs)) ∨
      (∃ e, (libToDict fetch cls doc schema path processNamespaces locations
        kwargs).1 = Except.error e ∧ PyExc.isXMLSchemaException e = true)) ∧
    ((∃ v opts, (libToJson fetch cls doc fp schema path converter
        processNamespaces locations jsonOptions kwargs).1 =
          Except.ok (JsonRet.text v opts, [])) ∨
      (∃ v opts errs, (libToJson fetch cls doc fp schema path converter
        processNamespaces locations jsonOptions kwargs).1 =
          Except.ok (JsonRet.textWithErrors v opts errs, [])) ∨
      (∃ calls, (libToJson fetch cls doc fp schema path converter
        processNamespaces locations jsonOptions kwargs).1 =
          Except.ok (JsonRet.written, calls) ∧ fp = true) ∨
      (∃ errs calls, (libToJson fetch cls doc fp schema path converter
        processNamespaces locations jsonOptions kwargs).1 =
          Except.ok (JsonRet.errorsOnly errs, calls) ∧ fp = true) ∨
      (∃ e, (libToJson fetch cls doc fp schema path converter
        processNamespaces locations jsonOptions kwargs).1 =
          Except.error e ∧ PyExc.isXMLSchemaException e = true)) ∧
    ((∃ v, libFromJson loads source schema path converter jsonOptions kwargs =
        Except.ok (EncodeResult.element v)) ∨
      (∃ v errs, libFromJson loads source schema path converter jsonOptions
        kwargs = Except.ok (EncodeResult.elementWithErrors v errs)) ∨
      (∃ e, libFromJson loads source schema path converter jsonOptions kwargs =
        Except.error e ∧ PyExc.isXMLSchemaException e = true) ∨
      (∃ m, libFromJson loads source schema path converter jsonOptions kwargs =
        Except.error (PyExc.typeError m) ∧
          ∀ s, schema ≠ SchemaArg.inst s)) := by
  refine ⟨?_, ?_, ?_, ?_⟩
  · cases hres : (resolveSchema fetch cls doc schema locations).1.validateFn
        doc useDefaults with
    | ok u => exact Or.inl (by simp [libValidate, hres])
    | error e => exact Or.inr ⟨e, by simp [libValidate, hres], hval e hres⟩
  · cases hres : (resolveSchema fetch cls doc schema locations).1.toDictFn
        (toDictDecodeCall doc path processNamespaces kwargs) with
    | ok r =>
      cases r with
      | value v => exact Or.inl ⟨v, by simp [libToDict, hres]⟩
      | valueWithErrors v errs =>
          exact Or.inr (Or.inl ⟨v, errs, by simp [libToDict, hres]⟩)
    | error e =>
        exact Or.inr (Or.inr ⟨e, by simp [libToDict, hres], hdec _ e hres⟩)
  · cases hres : (resolveSchema fetch cls doc schema locations).1.toDictFn
        (toJsonDecodeCall doc path converter processNamespaces kwargs) with
    | ok r =>
      cases r with
      | value v =>
        cases fp with
        | false =>
            exact Or.inl ⟨v, jsonOptions.getD [], by simp [libToJson, hres]⟩
        | true =>
            exact Or.inr (Or.inr (Or.inl
              ⟨[{ v := v, opts := jsonOptions.getD [] }],
                by simp [libToJson, hres], rfl⟩))
      | valueWithErrors v errs =>
        cases fp with
        | false =>
            exact Or.inr (Or.inl ⟨v, jsonOptions.getD [], errs,
              by simp [libToJson, hres]⟩)
        | true =>
            exact Or.inr (Or.inr (Or.inr (Or.inl
              ⟨errs, [{ v := v, opts := toJsonLeftoverKwargs kwargs }],
                by simp [libToJson, hres], rfl⟩)))
    | error e =>
        exact Or.inr (Or.inr (Or.inr (Or.inr
          ⟨e, by simp [libToJson, hres], hdec _ e hres⟩)))
  · cases schema with
    | inst s =>
      cases hres : s.encodeFn (fromJsonEncodeCall loads source path converter
          jsonOptions kwargs) with
      | ok r =>
        cases r with
        | element v => exact Or.inl ⟨v, by simp [libFromJson, hres]⟩
        | elementWithErrors v errs =>
            exact Or.inr (Or.inl ⟨v, errs, by simp [libFromJson, hres]⟩)
      | error e =>
          exact Or.inr (Or.inr (Or.inl
            ⟨e, by simp [libFromJson, hres], henc s rfl e hres⟩))
    | src source2 =>
        exact Or.inr (Or.inr (Or.inr
          ⟨_, rfl, fun s h => SchemaArg.noConfusion h⟩))
    | noSchema =>
        exact Or.inr (Or.inr (Or.inr
          ⟨_, rfl, fun s h => SchemaArg.noConfusion h⟩))

/-- C2 witness: the amended outcome classification at a concrete call against
an instance none of whose methods fails. -/
theorem entry_point_outcome_shapes_witness :
    ((libValidate wFetch wCls "doc" (SchemaArg.inst okInst) true none).1 =
        Except.ok () ∨
      ∃ e, (libValidate wFetch wCls "doc" (SchemaArg.inst okInst) true none).1 =
          Except.error e ∧ PyExc.isXMLSchemaException e = true) ∧
    ((∃ v, (libToDict wFetch wCls "doc" (SchemaArg.inst okInst) none true none
        []).1 = Except.ok (DecodeResult.value v)) ∨
      (∃ v errs, (libToDict wFetch wCls "doc" (SchemaArg.inst okInst) none true
        none []).1 = Except.ok (DecodeResult.valueWithErrors v errs)) ∨
      (∃ e, (libToDict wFetch wCls "doc" (SchemaArg.inst okInst) none true none
        []).1 = Except.error e ∧ PyExc.isXMLSchemaException e = true)) ∧
    ((∃ v opts, (libToJson wFetch wCls "doc" true (SchemaArg.inst okInst) none
        none true none none []).1 = Except.ok (JsonRet.text v opts, [])) ∨
      (∃ v opts errs, (libToJson wFetch wCls "doc" true (SchemaArg.inst okInst)
        none none true none none []).1 =
          Except.ok (JsonRet.textWithErrors v opts errs, [])) ∨
      (∃ calls, (libToJson wFetch wCls "doc" true (SchemaArg.inst okInst) none
        none true none none []).1 = Except.ok (JsonRet.written, calls) ∧
          true = true) ∨
      (∃ errs calls, (libToJson wFetch wCls "doc" true (SchemaArg.inst okInst)
        none none true none none []).1 =
          Except.ok (JsonRet.errorsOnly errs, calls) ∧ true = true) ∨
      (∃ e, (libToJson wFetch wCls "doc" true (SchemaArg.inst okInst) none none
        true none none []).1 = Except.error e ∧
          PyExc.isXMLSchemaException e = true)) ∧
    ((∃ v, libFromJson wLoads "src" (SchemaArg.inst okInst) none none none [] =
        Except.ok (EncodeResult.element v)) ∨
      (∃ v errs, libFromJson wLoads "src" (SchemaArg.inst okInst) none none
        none [] = Except.ok (EncodeResult.elementWithErrors v errs)) ∨
      (∃ e, libFromJson wLoads "src" (SchemaArg.inst okInst) none none none [] =
        Except.error e ∧ PyExc.isXMLSchemaException e = true) ∨
      (∃ m, libFromJson wLoads "src" (SchemaArg.inst okInst) none none none [] =
        Except.error (PyExc.typeError m) ∧
          ∀ s, SchemaArg.inst okInst ≠ SchemaArg.inst s)) :=
  entry_point_outcome_shapes wFetch wCls wLoads "doc" "src"
    (SchemaArg.inst okInst) true true true none none none none []
    (fun e h => absurd h (by simp [resolveSchema, okInst]))
    (fun call e h => absurd h (by simp [resolveSchema, okInst]))
    (fun s hs e h => by
      injection hs with h2
      subst h2
      exact absurd h (by simp [okInst]))
